import Mathlib

/-!
Verification of the gameplay logic of the Fyrox demo projects
(platformer, UI gallery, blend-shape viewer, sound demo, animation demo).

Each demo is embedded shallowly: the engine-owned state a handler touches
(scene-graph nodes, script fields, outbound UI messages) is made explicit,
scalars are rationals (the ideal arithmetic of the f32 operations the code
performs), and a Rust panic is modelled by a dedicated flag or an Option.
Angles are tracked by their measure in degrees: the code stores
`x_degrees.to_radians()`, i.e. `x * pi / 180` radians, and this rescaling is
exact and order-preserving, so a value `Radians.mk d` stands for the radian
value `d * pi / 180`.
-/

/-- Measure of an angle in radians, represented exactly by its degree
measure `deg`: the value stands for `deg * pi / 180` radians. -/
structure Radians where
  deg : Rat
deriving DecidableEq, Repr

instance : Add Radians := ⟨fun a b => ⟨a.deg + b.deg⟩⟩

instance : Sub Radians := ⟨fun a b => ⟨a.deg - b.deg⟩⟩

/-- Rust's `f32::to_radians`: converts a degree measure to radians. -/
def Rat.toRadians (x : Rat) : Radians := ⟨x⟩

/-- Rust's `f32::clamp(lo, hi)` (the code always calls it with `lo ≤ hi`). -/
def rustClamp (x lo hi : Rat) : Rat := min (max x lo) hi

/-- Model of `winit::event::ElementState`. -/
inductive ElementState
  | pressed
  | released
deriving DecidableEq, Repr

/-- The key codes the demos distinguish; every other physical key is
collapsed into `otherKey`, which all the handlers ignore. -/
inductive KeyCode
  | keyA
  | keyD
  | keyW
  | keyS
  | space
  | shiftLeft
  | otherKey
deriving DecidableEq, Repr

/-- Model of `winit::keyboard::PhysicalKey`: either a known key code or an
unidentified platform scancode. -/
inductive PhysicalKey
  | code (c : KeyCode)
  | unidentified
deriving DecidableEq, Repr

/-- Model of `fyrox::gui::message::MessageDirection`. -/
inductive MessageDirection
  | toWidget
  | fromWidget
deriving DecidableEq, Repr

namespace Platformer

/-! ## `platformer/game/src/lib.rs` -/

/-- Model of `Vector2<f32>`. -/
structure Vector2 where
  x : Rat
  y : Rat
deriving DecidableEq, Repr

/-- Model of `Vector3<f32>`. -/
structure Vector3 where
  x : Rat
  y : Rat
  z : Rat
deriving DecidableEq, Repr

/-- A UV rectangle (`Rect<f32>`); `default` is the all-zero rectangle. -/
structure UvRect where
  x : Rat
  y : Rat
  w : Rat
  h : Rat
deriving DecidableEq, Repr

/-- The material of a `Rectangle` node: whether it has the
`diffuseTexture` property (`set_texture` returns `Err`, and the script's
`.unwrap()` panics, when it does not), and the property's current value
(a texture identified by a number). -/
structure Material where
  hasDiffuseTexture : Bool
  texture : Option Nat
deriving DecidableEq, Repr

/-- The node data the platformer script distinguishes: a 2D rigid body
(with its linear velocity), a 2D rectangle sprite (with its material and
UV rectangle), or any other node kind. -/
inductive NodeKind
  | rigidBody2D (linVel : Vector2)
  | rectangle (material : Material) (uvRect : UvRect)
  | otherNode
deriving DecidableEq, Repr

/-- A scene-graph node: its kind-specific data and its local-transform
scale (the only transform component the script touches). -/
structure Node where
  kind : NodeKind
  scale : Vector3
deriving DecidableEq, Repr

/-- The scene graph, as a partial map from node handles to nodes.
`none` is an invalid (dangling or unassigned) handle. -/
def Graph := Nat → Option Node

/-- Write `n` at handle `h` (the effect of mutating through a borrowed
`&mut Node`). -/
def Graph.setNode (g : Graph) (h : Nat) (n : Node) : Graph :=
  fun k => if k = h then some n else g k

/-- Model of `SpriteSheetAnimation` (engine-owned; modelled by the data the script
reads from it: `update` accumulates elapsed time, `texture` and
`current_frame_uv_rect` are the current frame's data). -/
structure SpriteSheetAnimation where
  elapsed : Rat
  texture : Nat
  currentFrameUvRect : Option UvRect
deriving DecidableEq, Repr

/-- Model of `SpriteSheetAnimation::update(dt)`: advance the animation clock. -/
def SpriteSheetAnimation.update (a : SpriteSheetAnimation) (dt : Rat) :
    SpriteSheetAnimation :=
  { a with elapsed := a.elapsed + dt }

/-- The `Player` script's fields. -/
structure Player where
  sprite : Nat
  move_left : Bool
  move_right : Bool
  jump : Bool
  animations : List SpriteSheetAnimation
  current_animation : Nat
deriving DecidableEq, Repr

/-- Model of `Player::default()`: unassigned sprite handle, all flags false,
no animations, current animation 0. -/
def defaultPlayer : Player :=
  { sprite := 0
    move_left := false
    move_right := false
    jump := false
    animations := []
    current_animation := 0 }

/-- The OS events the `Player` script inspects: a window keyboard event
(with its physical key and press state), any other window event, any
device event, or any other event. -/
inductive Event
  | keyboardInput (key : PhysicalKey) (state : ElementState)
  | otherWindowEvent
  | deviceEvent
  | otherEvent
deriving DecidableEq, Repr

/-- Model of `Player::on_os_event`: on a window keyboard event, set the boolean
matching the key code to whether the key was pressed; ignore everything
else. -/
def Player.onOsEvent (p : Player) (e : Event) : Player :=
  match e with
  | .keyboardInput key state =>
    let is_pressed := state = ElementState.pressed
    match key with
    | .code .keyA => { p with move_left := is_pressed }
    | .code .keyD => { p with move_right := is_pressed }
    | .code .space => { p with jump := is_pressed }
    | _ => p
  | _ => p

/-- The parts of `ScriptContext` the script reads: the handle of the node
the script is attached to, the scene graph, and the frame delta time. -/
structure ScriptContext where
  handle : Nat
  graph : Graph
  dt : Rat

/-- Outcome of one `on_update` call: the script state and graph after all
mutations that executed, and whether execution panicked (a panic aborts
the call but the mutations already made persist in the engine state). -/
structure UpdateResult where
  player : Player
  graph : Graph
  panicked : Bool

/-- Model of `f32::copysign(b)` on the values the script feeds it: magnitude of
`a`, sign of `b` (the script only calls it with nonzero `b`). -/
def copysign (a b : Rat) : Rat := if b < 0 then -|a| else |a|

/-- The first half of `Player::on_update` (the `cast_mut::<RigidBody>`
block): if the node is a 2D `RigidBody`, compute `x_speed` from the input
flags, pick the current animation, set the linear velocity, and (via
`try_get_mut`, skipped when the `sprite` handle is invalid) mirror the
sprite's x-scale when moving; otherwise change nothing. -/
def Player.bodyStep (p : Player) (ctx : ScriptContext) (node : Node) :
    Player × Graph :=
  match node.kind with
  | .rigidBody2D linVel =>
    let x_speed : Rat :=
      if p.move_left then 3 else if p.move_right then -3 else 0
    let p1 : Player :=
      if x_speed ≠ 0 then { p with current_animation := 0 }
      else { p with current_animation := 1 }
    let newVel : Vector2 :=
      if p.jump then ⟨x_speed, 4⟩ else ⟨x_speed, linVel.y⟩
    let g1 := ctx.graph.setNode ctx.handle { node with kind := .rigidBody2D newVel }
    let g2 :=
      match g1 p.sprite with
      | some sprite =>
        if x_speed ≠ 0 then
          g1.setNode p.sprite
            { sprite with
                scale := ⟨copysign sprite.scale.x (-x_speed),
                          sprite.scale.y, sprite.scale.z⟩ }
        else g1
      | none => g1
    (p1, g2)
  | _ => (p, ctx.graph)

/-- The second half of `Player::on_update`: advance the current animation
(when the index is in bounds) and — via `try_get_mut`, and only when the
sprite is a `Rectangle` — push the frame's texture and UV rectangle into
the sprite; `set_texture(...).unwrap()` panics when the material lacks
the `diffuseTexture` property. -/
def Player.animationStep (p1 : Player) (sprite_handle : Nat) (dt : Rat)
    (g2 : Graph) : UpdateResult :=
  match p1.animations.get? p1.current_animation with
  | none => ⟨p1, g2, false⟩
  | some anim =>
    let anim' := anim.update dt
    let p2 := { p1 with animations := p1.animations.set p1.current_animation anim' }
    match g2 sprite_handle with
    | some sprite =>
      match sprite.kind with
      | .rectangle mat _ =>
        if mat.hasDiffuseTexture then
          ⟨p2,
           g2.setNode sprite_handle
             { sprite with
                 kind := .rectangle { mat with texture := some anim'.texture }
                   (anim'.currentFrameUvRect.getD ⟨0, 0, 0, 0⟩) },
           false⟩
        else ⟨p2, g2, true⟩
      | _ => ⟨p2, g2, false⟩
    | none => ⟨p2, g2, false⟩

/-- Model of `Player::on_update`, from `platformer/game/src/lib.rs`:
`context.scene.graph[context.handle]` (indexing panics on an invalid
handle), then the rigid-body block (`bodyStep`), then the sprite-sheet
animation block (`animationStep`). -/
def Player.onUpdate (p : Player) (ctx : ScriptContext) : UpdateResult :=
  match ctx.graph ctx.handle with
  | none => ⟨p, ctx.graph, true⟩
  | some node =>
    let s1 := p.bodyStep ctx node
    Player.animationStep s1.1 p.sprite ctx.dt s1.2

/-- The `x_speed` the claim describes: 3.0 when `move_left`, -3.0 when
`move_right` (and `move_left` is false), 0.0 otherwise. -/
def claimedXSpeed (p : Player) : Rat :=
  if p.move_left then 3 else if p.move_right then -3 else 0

/-- The behaviour the specification ascribes to `Player::on_os_event`:
KeyA sets `move_left`, KeyD sets `move_right`, Space sets `jump`, each to
true on a Pressed state and false on a Released state; a keyboard event
for any other key, and any non-keyboard event, leaves all fields
unchanged. (Written from the spec's words, to be compared with
`Player.onOsEvent`, which is written from the source.) -/
def claimedOsEventBehavior (p : Player) (e : Event) : Player :=
  match e with
  | .keyboardInput (.code KeyCode.keyA) st =>
    { p with move_left := st = ElementState.pressed }
  | .keyboardInput (.code KeyCode.keyD) st =>
    { p with move_right := st = ElementState.pressed }
  | .keyboardInput (.code KeyCode.space) st =>
    { p with jump := st = ElementState.pressed }
  | _ => p

/-- The `Game` plugin's fields (the platformer's main-menu logic). -/
structure Game where
  scene : Nat
  debug_text : Nat
  new_game : Nat
  exit : Nat
deriving DecidableEq, Repr

/-- The UI message payloads `Game::on_ui_message` distinguishes:
`ButtonMessage::Click` or anything else. -/
inductive UiMsgData
  | buttonClick
  | otherMsg
deriving DecidableEq, Repr

/-- A `UiMessage` as the platformer's `Game::on_ui_message` inspects it. -/
structure UiMessage where
  destination : Nat
  data : UiMsgData
deriving DecidableEq, Repr

/-- A UI message the plugin sends out through
`context.user_interface.send_message`. -/
inductive OutMsg
  | widgetVisibility (destination : Nat) (direction : MessageDirection) (visible : Bool)
deriving DecidableEq, Repr

/-- Model of `Game::on_ui_message` from `platformer/game/src/lib.rs`: on a button
click aimed at `new_game`, send `WidgetMessage::visibility(false)` to the
UI root; on a click aimed at `exit`, request application exit when a
window target is present. Returns the list of sent messages and whether
exit was requested. -/
def Game.onUiMessage (g : Game) (uiRoot : Nat) (hasWindowTarget : Bool)
    (m : UiMessage) : List OutMsg × Bool :=
  match m.data with
  | .buttonClick =>
    if m.destination = g.new_game then
      ([.widgetVisibility uiRoot .toWidget false], false)
    else if m.destination = g.exit then
      (if hasWindowTarget then ([], true) else ([], false))
    else ([], false)
  | .otherMsg => ([], false)

end Platformer

/-- A 3D rotation quaternion as the demos build it:
`UnitQuaternion::from_axis_angle(&Vector3::y_axis(), angle)`, or any other
rotation value (identified by a number). -/
inductive YRotation
  | fromAxisAngleY (angle : Radians)
  | otherRotation (id : Nat)
deriving DecidableEq, Repr

namespace UIDemo

/-! ## `ui/game/src/lib.rs` -/

/-- Model of `Vector3<f32>`. -/
structure Vector3 where
  x : Rat
  y : Rat
  z : Rat
deriving DecidableEq, Repr

/-- A 3D scene node: the local-transform components the UI demo touches. -/
structure Node3D where
  scale : Vector3
  rotation : YRotation
deriving DecidableEq, Repr

/-- A scene's graph, as a partial map from node handles to nodes. -/
structure Scene where
  graph : Nat → Option Node3D

/-- Write node `n` at handle `h` of the scene's graph. -/
def Scene.setNode (s : Scene) (h : Nat) (n : Node3D) : Scene :=
  ⟨fun k => if k = h then some n else s.graph k⟩

/-- The scene container, as a partial map from scene handles to scenes. -/
def Scenes := Nat → Option Scene

/-- Write scene `sc` at handle `h`. -/
def Scenes.setScene (s : Scenes) (h : Nat) (sc : Scene) : Scenes :=
  fun k => if k = h then some sc else s k

/-- The `Interface` struct: handles of the widgets the demo listens to. -/
structure Interface where
  debug_text : Nat
  yaw : Nat
  scale : Nat
  reset : Nat
  quality_inspector : Nat
  press_me_button : Nat
  message_box : Nat
deriving DecidableEq, Repr

/-- The `Game` plugin's fields. -/
structure Game where
  scene : Nat
  interface : Option Interface
  paladin : Nat

/-- The UI message payloads relevant to the scene graph:
`ScrollBarMessage::Value` or anything else. The source's remaining
branches (reset click, message-box button, inspector property, message box
close) only send further UI messages, build widgets, or adjust renderer
quality settings; none of them touches the scene graph. -/
inductive UiMsgData
  | scrollBarValue (value : Rat)
  | otherMsg
deriving DecidableEq, Repr

/-- A `UiMessage` as `Game::on_ui_message` inspects it. -/
structure UiMessage where
  destination : Nat
  direction : MessageDirection
  data : UiMsgData
deriving DecidableEq, Repr

/-- The scene-graph effect of `Game::on_ui_message` from
`ui/game/src/lib.rs`: when the interface exists and a
`ScrollBarMessage::Value` travels `FromWidget`, fetch the scene and the
paladin node through `try_get_mut` chains; a message from the `scale`
scroll bar sets the paladin's scale to `Vector3::repeat(value)`, one from
the `yaw` scroll bar sets its rotation to `value.to_radians()` about the
y axis. All other messages leave the scenes unchanged. -/
def Game.onUiMessage (g : Game) (scenes : Scenes) (m : UiMessage) : Scenes :=
  match g.interface with
  | none => scenes
  | some itf =>
    match m.data with
    | .scrollBarValue value =>
      if m.direction = MessageDirection.fromWidget then
        match scenes g.scene with
        | none => scenes
        | some s =>
          match s.graph g.paladin with
          | none => scenes
          | some paladin =>
            if m.destination = itf.scale then
              scenes.setScene g.scene
                (s.setNode g.paladin { paladin with scale := ⟨value, value, value⟩ })
            else if m.destination = itf.yaw then
              scenes.setScene g.scene
                (s.setNode g.paladin
                  { paladin with rotation := .fromAxisAngleY value.toRadians })
            else scenes
      else scenes
    | .otherMsg => scenes

end UIDemo

namespace BlendShape

/-! ## `blendshape/game/src/lib.rs` -/

/-- One blend shape of a mesh surface: its name and current weight. -/
structure BlendShapeEntry where
  name : String
  weight : Rat
deriving DecidableEq, Repr

/-- A scene node of the blend-shape demo: its name, whether it is a mesh
(`as_mesh_mut` panics on a non-mesh node), its blend shapes, and its
local rotation. -/
structure BNode where
  name : String
  isMesh : Bool
  blendShapes : List BlendShapeEntry
  rotation : YRotation
deriving DecidableEq, Repr

/-- A scene: its graph as a list of nodes, a node's handle being its
index (`find_by_name_from_root` returns the first name match in it). -/
structure Scene where
  graph : List BNode
deriving DecidableEq, Repr

/-- The scene container, as a partial map from scene handles to scenes. -/
def Scenes := Nat → Option Scene

/-- Write scene `sc` at handle `h`. -/
def Scenes.setScene (s : Scenes) (h : Nat) (sc : Scene) : Scenes :=
  fun k => if k = h then some sc else s k

/-- The `InputController` struct. -/
structure InputController where
  rotate_left : Bool
  rotate_right : Bool
deriving DecidableEq, Repr

/-- The `Game` plugin's fields. The source's `loader` field drives
one-time asynchronous scene installation; this model covers the state
after loading has completed (`loader` of `None`), which is the only state
the update's rotation logic can observe a valid scene in. -/
structure Game where
  scene : Nat
  model_handle : Nat
  input_controller : InputController
  debug_text : Nat
  model_angle : Radians
  sliders : List (String × Nat)

/-- The OS events `Game::on_os_event` inspects; this demo's engine
version exposes the physical key directly as a `KeyCode`. -/
inductive KEvent
  | keyboardInput (key : KeyCode) (state : ElementState)
  | otherWindowEvent
  | otherEvent
deriving DecidableEq, Repr

/-- Model of `Game::on_os_event`: KeyA drives `rotate_left`, KeyD drives
`rotate_right`, everything else is ignored. -/
def Game.onOsEvent (g : Game) (e : KEvent) : Game :=
  match e with
  | .keyboardInput key state =>
    match key with
    | .keyA =>
      { g with input_controller :=
          { g.input_controller with rotate_left := state = ElementState.pressed } }
    | .keyD =>
      { g with input_controller :=
          { g.input_controller with rotate_right := state = ElementState.pressed } }
    | _ => g
  | _ => g

/-- The scene-state effect of `Game::update` from
`blendshape/game/src/lib.rs` (the debug-text message it also sends is a
pure UI output and is not tracked): when the scene handle resolves via
`try_get_mut`, rotate `model_angle` by `5.0f32.to_radians()` — left
first, else right, else keep — then set the model node's rotation to the
angle about the y axis; `scene.graph[self.model_handle]` panics
(`none`) on an invalid model handle. -/
def Game.update (g : Game) (scenes : Scenes) : Option (Game × Scenes) :=
  match scenes g.scene with
  | none => some (g, scenes)
  | some s =>
    let angle : Radians :=
      if g.input_controller.rotate_left then g.model_angle - (5 : Rat).toRadians
      else if g.input_controller.rotate_right then g.model_angle + (5 : Rat).toRadians
      else g.model_angle
    match s.graph.get? g.model_handle with
    | none => none
    | some node =>
      let node' : BNode := { node with rotation := .fromAxisAngleY angle }
      some ({ g with model_angle := angle },
        scenes.setScene g.scene { s with graph := s.graph.set g.model_handle node' })

/-- The UI message payloads `Game::on_ui_message` distinguishes. -/
inductive UiMsgData
  | scrollBarValue (value : Rat)
  | otherMsg
deriving DecidableEq, Repr

/-- A `UiMessage` as `Game::on_ui_message` inspects it. -/
structure UiMessage where
  destination : Nat
  direction : MessageDirection
  data : UiMsgData
deriving DecidableEq, Repr

/-- The write the slider loop performs on the scene: node `idx` (the
`Head_Mesh`, currently `head`) gets the weight of every blend shape whose
name equals `nm` set to `value`, every other blend shape unchanged. -/
def weightWrite (s : Scene) (idx : Nat) (head : BNode) (nm : String)
    (value : Rat) : Scene :=
  let setW : BlendShapeEntry → BlendShapeEntry :=
    fun b => if b.name = nm then { b with weight := value } else b
  { s with graph := s.graph.set idx { head with blendShapes := head.blendShapes.map setW } }

/-- One iteration of the slider loop in `Game::on_ui_message`: when the
slider's handle `p.2` equals the message's destination, index the scene
(panics on an invalid handle), find the `Head_Mesh` node (`unwrap` panics
when absent), take it as a mesh (panics on a non-mesh node), and perform
`weightWrite` with the slider's name `p.1`. `none` models a panic. -/
def sliderStep (sceneHandle dest : Nat) (value : Rat) (sc : Scenes)
    (p : String × Nat) : Option Scenes :=
  if dest = p.2 then
    match sc sceneHandle with
    | none => none
    | some s =>
      match s.graph.findIdx? (fun n => n.name == "Head_Mesh") with
      | none => none
      | some idx =>
        match s.graph.get? idx with
        | none => none
        | some head =>
          if head.isMesh then
            some (sc.setScene sceneHandle (weightWrite s idx head p.1 value))
          else none
  else some sc

/-- The `for (name, slider) in self.sliders.iter()` loop of
`Game::on_ui_message`. -/
def applySliders (sceneHandle dest : Nat) (value : Rat)
    (sliders : List (String × Nat)) (scenes : Scenes) : Option Scenes :=
  sliders.foldlM (sliderStep sceneHandle dest value) scenes

/-- Model of `Game::on_ui_message` from `blendshape/game/src/lib.rs`: on a
`ScrollBarMessage::Value` travelling `FromWidget`, walk the registered
`sliders` with `sliderStep`; any other message changes nothing. -/
def Game.onUiMessage (g : Game) (scenes : Scenes) (m : UiMessage) :
    Option Scenes :=
  match m.data with
  | .scrollBarValue value =>
    if m.direction = MessageDirection.fromWidget then
      applySliders g.scene m.destination value g.sliders scenes
    else some scenes
  | .otherMsg => some scenes

end BlendShape

namespace SoundDemo

/-! ## `sound/game/src/camera_controller.rs`

Angle-valued quantities in this namespace (the `yaw` and `pitch` fields,
the mouse-motion contributions, and the clamp bounds) are tracked by
their degree measure, i.e. the source's radian values multiplied by the
constant `180 / pi`. The rescaling is linear and order-preserving, so
additions, subtractions and `clamp` commute with it exactly. -/

/-- The `CameraController` script's fields. -/
structure CameraController where
  camera : Nat
  move_forward : Bool
  move_backward : Bool
  move_left : Bool
  move_right : Bool
  yaw : Rat
  pitch : Rat
deriving DecidableEq, Repr

/-- Model of `CameraController::default()`. -/
def defaultCameraController : CameraController :=
  { camera := 0
    move_forward := false
    move_backward := false
    move_left := false
    move_right := false
    yaw := 0
    pitch := 0 }

/-- The OS events the script inspects; this demo's engine version exposes
the physical key directly as a `KeyCode`, and mouse motion arrives as a
device event with a free two-axis delta. -/
inductive Event
  | keyboardInput (key : KeyCode) (state : ElementState)
  | otherWindowEvent
  | mouseMotion (dx dy : Rat)
  | otherDeviceEvent
  | otherEvent
deriving DecidableEq, Repr

/-- The pitch clamp bound: the source's `89.9f32.to_radians()`, tracked
by its degree measure 89.9. -/
def cameraPitchBound : Rat := 899 / 10

/-- Model of `CameraController::on_os_event`: WASD drive the movement flags; mouse
motion turns `yaw` and accumulates `pitch`, clamped to
`[-89.9, 89.9]` degrees (the source's `0.7 * dt` speed factor is kept as
written; the delta components are free inputs). -/
def CameraController.onOsEvent (c : CameraController) (e : Event) (dt : Rat) :
    CameraController :=
  match e with
  | .keyboardInput key state =>
    let pressed := state = ElementState.pressed
    match key with
    | .keyW => { c with move_forward := pressed }
    | .keyS => { c with move_backward := pressed }
    | .keyA => { c with move_left := pressed }
    | .keyD => { c with move_right := pressed }
    | _ => c
  | .mouseMotion dx dy =>
    let speed := 7 / 10 * dt
    { c with
        yaw := c.yaw - dx * speed,
        pitch := rustClamp (c.pitch + dy * speed) (-cameraPitchBound) cameraPitchBound }
  | _ => c

/-- Run a sequence of OS events, each with its frame's `dt`. -/
def CameraController.runEvents (c : CameraController)
    (evs : List (Event × Rat)) : CameraController :=
  evs.foldl (fun st p => st.onOsEvent p.1 p.2) c

end SoundDemo

namespace AnimationDemo

/-! ## `animation/game/src/player.rs`

Angles are tracked by their degree measure, as in `SoundDemo`. -/

/-- The `Player` script's fields touched by `on_os_event` (the
`model_yaw : SmoothAngle` field is only used by `on_update` and is
omitted). -/
structure Player where
  camera_pivot : Nat
  camera_hinge : Nat
  state_machine : Nat
  model_pivot : Nat
  model : Nat
  walk_forward : Bool
  walk_backward : Bool
  walk_left : Bool
  walk_right : Bool
  run : Bool
  yaw : Rat
  pitch : Rat
deriving DecidableEq, Repr

/-- Model of `Player::default()`. -/
def defaultPlayer : Player :=
  { camera_pivot := 0
    camera_hinge := 0
    state_machine := 0
    model_pivot := 0
    model := 0
    walk_forward := false
    walk_backward := false
    walk_left := false
    walk_right := false
    run := false
    yaw := 0
    pitch := 0 }

/-- The OS events the script inspects (this demo's engine version wraps
the key code in a `PhysicalKey`). -/
inductive Event
  | keyboardInput (key : PhysicalKey) (state : ElementState)
  | otherWindowEvent
  | mouseMotion (dx dy : Rat)
  | otherDeviceEvent
  | otherEvent
deriving DecidableEq, Repr

/-- The pitch clamp bound: the source's `90.0f32.to_radians()`, tracked
by its degree measure 90. -/
def playerPitchBound : Rat := 90

/-- Model of `Player::on_os_event`: WASD drive the walk flags and left shift the
run flag; mouse motion turns `yaw` and accumulates `pitch`, clamped to
`[-90, 90]` degrees (the source's `0.2 * dt` sensitivity factor is kept
as written; the delta components are free inputs). -/
def Player.onOsEvent (p : Player) (e : Event) (dt : Rat) : Player :=
  match e with
  | .keyboardInput key state =>
    let pressed := state = ElementState.pressed
    match key with
    | .code .keyW => { p with walk_forward := pressed }
    | .code .keyS => { p with walk_backward := pressed }
    | .code .keyA => { p with walk_left := pressed }
    | .code .keyD => { p with walk_right := pressed }
    | .code .shiftLeft => { p with run := pressed }
    | _ => p
  | .mouseMotion dx dy =>
    let mouse_sens := 2 / 10 * dt
    { p with
        yaw := p.yaw - dx * mouse_sens,
        pitch := rustClamp (p.pitch + dy * mouse_sens) (-playerPitchBound) playerPitchBound }
  | _ => p

/-- Run a sequence of OS events, each with its frame's `dt`. -/
def Player.runEvents (p : Player) (evs : List (Event × Rat)) : Player :=
  evs.foldl (fun st q => st.onOsEvent q.1 q.2) p

end AnimationDemo

/-! ## Helper lemmas -/

theorem Platformer.Graph.setNode_self (g : Platformer.Graph) (h : Nat)
    (n : Platformer.Node) : g.setNode h n h = some n := by
  simp [Platformer.Graph.setNode]

theorem Platformer.Graph.setNode_of_ne (g : Platformer.Graph) (h : Nat)
    (n : Platformer.Node) (k : Nat) (hk : k ≠ h) : g.setNode h n k = g k := by
  simp [Platformer.Graph.setNode, hk]

/-! ## Claim theorems -/

/-- C2: for the platformer `Player` script, every keyboard window event
flips exactly the boolean matching the key — KeyA sets `move_left`, KeyD
sets `move_right`, Space sets `jump`, to true on Pressed and false on
Released — and a keyboard event for any other key, as well as any
non-keyboard event, leaves all of the script's fields unchanged
(`Player.onOsEvent` refines `claimedOsEventBehavior`). -/
theorem Platformer.onOsEvent_matches_claim (p : Platformer.Player)
    (e : Platformer.Event) :
    p.onOsEvent e = Platformer.claimedOsEventBehavior p e := by
  cases e with
  | keyboardInput key state =>
    cases key with
    | code c => cases c <;> rfl
    | unidentified => rfl
  | otherWindowEvent => rfl
  | deviceEvent => rfl
  | otherEvent => rfl

/-- C7: in the platformer, a `ButtonMessage::Click` aimed at the
`new_game` button sends a `visibility(false)` widget message to the UI
root and requests no exit; a click aimed at the `exit` button with a
window target present requests application exit; a click from any other
destination sends no message and requests no exit. -/
theorem Platformer.game_click_routing (g : Platformer.Game) (uiRoot : Nat)
    (hasWindowTarget : Bool) (m : Platformer.UiMessage)
    (hdata : m.data = Platformer.UiMsgData.buttonClick)
    (hne : g.new_game ≠ g.exit) :
    (m.destination = g.new_game →
      g.onUiMessage uiRoot hasWindowTarget m =
        ([Platformer.OutMsg.widgetVisibility uiRoot MessageDirection.toWidget false], false)) ∧
    (m.destination = g.exit → hasWindowTarget = true →
      g.onUiMessage uiRoot hasWindowTarget m = ([], true)) ∧
    (m.destination ≠ g.new_game → m.destination ≠ g.exit →
      g.onUiMessage uiRoot hasWindowTarget m = ([], false)) := by
  unfold Platformer.Game.onUiMessage
  rw [hdata]
  refine ⟨fun h1 => ?_, fun h1 h2 => ?_, fun h1 h2 => ?_⟩
  · simp [h1]
  · have hx : g.exit ≠ g.new_game := Ne.symm hne
    simp [h1, h2, hx]
  · simp [h1, h2]

/-- Witness for C7: a concrete click on the new-game button hides the
menu root. -/
theorem Platformer.game_click_routing_witness :
    Platformer.Game.onUiMessage ⟨0, 1, 2, 3⟩ 7 true ⟨2, .buttonClick⟩ =
      ([Platformer.OutMsg.widgetVisibility 7 MessageDirection.toWidget false], false) :=
  (Platformer.game_click_routing ⟨0, 1, 2, 3⟩ 7 true ⟨2, .buttonClick⟩ rfl
    (by decide)).1 rfl

theorem Platformer.bodyStep_fst_rigid (p : Platformer.Player)
    (ctx : Platformer.ScriptContext) (node : Platformer.Node)
    (linVel : Platformer.Vector2)
    (hkind : node.kind = Platformer.NodeKind.rigidBody2D linVel) :
    (p.bodyStep ctx node).1 =
      (if Platformer.claimedXSpeed p ≠ 0 then { p with current_animation := 0 }
       else { p with current_animation := 1 }) := by
  unfold Platformer.Player.bodyStep
  rw [hkind]
  rfl

theorem Platformer.bodyStep_fst_other (p : Platformer.Player)
    (ctx : Platformer.ScriptContext) (node : Platformer.Node)
    (hkind : ∀ v, node.kind ≠ Platformer.NodeKind.rigidBody2D v) :
    (p.bodyStep ctx node).1 = p := by
  unfold Platformer.Player.bodyStep
  cases hk : node.kind with
  | rigidBody2D v => exact absurd hk (hkind v)
  | rectangle mat uv => rfl
  | otherNode => rfl

theorem Platformer.bodyStep_vel (p : Platformer.Player)
    (ctx : Platformer.ScriptContext) (node : Platformer.Node)
    (linVel : Platformer.Vector2)
    (hkind : node.kind = Platformer.NodeKind.rigidBody2D linVel) :
    ∃ n', (p.bodyStep ctx node).2 ctx.handle = some n' ∧
      n'.kind = Platformer.NodeKind.rigidBody2D
        ⟨Platformer.claimedXSpeed p, if p.jump then 4 else linVel.y⟩ := by
  unfold Platformer.Player.bodyStep
  rw [hkind]
  dsimp only
  have hv : (if p.jump then (⟨Platformer.claimedXSpeed p, 4⟩ : Platformer.Vector2)
      else ⟨Platformer.claimedXSpeed p, linVel.y⟩) =
      ⟨Platformer.claimedXSpeed p, if p.jump then 4 else linVel.y⟩ := by
    split <;> rfl
  rw [show (if p.move_left then (3 : Rat) else if p.move_right then -3 else 0) =
    Platformer.claimedXSpeed p from rfl, hv]
  by_cases hsp : p.sprite = ctx.handle
  · rw [hsp, Platformer.Graph.setNode_self]
    dsimp only
    split
    · rw [Platformer.Graph.setNode_self]
      exact ⟨_, rfl, rfl⟩
    · rw [Platformer.Graph.setNode_self]
      exact ⟨_, rfl, rfl⟩
  · rw [Platformer.Graph.setNode_of_ne _ _ _ _ hsp]
    cases hgs : ctx.graph p.sprite with
    | none =>
      dsimp only
      rw [Platformer.Graph.setNode_self]
      exact ⟨_, rfl, rfl⟩
    | some sprite =>
      dsimp only
      split
      · rw [Platformer.Graph.setNode_of_ne _ _ _ _ (Ne.symm hsp),
          Platformer.Graph.setNode_self]
        exact ⟨_, rfl, rfl⟩
      · rw [Platformer.Graph.setNode_self]
        exact ⟨_, rfl, rfl⟩

theorem Platformer.bodyStep_sprite_invalid (p : Platformer.Player)
    (ctx : Platformer.ScriptContext) (node : Platformer.Node)
    (hsprite : ctx.graph p.sprite = none) (hsp : p.sprite ≠ ctx.handle) :
    (p.bodyStep ctx node).2 p.sprite = none ∧
    (∀ k, k ≠ ctx.handle → (p.bodyStep ctx node).2 k = ctx.graph k) := by
  unfold Platformer.Player.bodyStep
  cases hk : node.kind with
  | rigidBody2D v =>
    dsimp only
    rw [Platformer.Graph.setNode_of_ne _ _ _ _ hsp, hsprite]
    dsimp only
    constructor
    · rw [Platformer.Graph.setNode_of_ne _ _ _ _ hsp]
      exact hsprite
    · intro k hk2
      exact Platformer.Graph.setNode_of_ne _ _ _ _ hk2
  | rectangle mat uv => exact ⟨hsprite, fun k _ => rfl⟩
  | otherNode => exact ⟨hsprite, fun k _ => rfl⟩

theorem Platformer.animationStep_sprite_none (q : Platformer.Player)
    (spr : Nat) (dt : Rat) (g : Platformer.Graph) (hs : g spr = none) :
    (Platformer.Player.animationStep q spr dt g).graph = g ∧
    (Platformer.Player.animationStep q spr dt g).panicked = false := by
  unfold Platformer.Player.animationStep
  cases hga : q.animations.get? q.current_animation with
  | none => exact ⟨rfl, rfl⟩
  | some anim =>
    dsimp only
    rw [hs]
    exact ⟨rfl, rfl⟩

theorem Platformer.animationStep_preserves_rigid (q : Platformer.Player)
    (spr : Nat) (dt : Rat) (g : Platformer.Graph) (k : Nat)
    (n : Platformer.Node) (v : Platformer.Vector2)
    (hk : g k = some n) (hkind : n.kind = Platformer.NodeKind.rigidBody2D v) :
    (Platformer.Player.animationStep q spr dt g).graph k = some n := by
  unfold Platformer.Player.animationStep
  cases hga : q.animations.get? q.current_animation with
  | none => exact hk
  | some anim =>
    dsimp only
    cases hgs : g spr with
    | none => exact hk
    | some sprite =>
      dsimp only
      cases hsk : sprite.kind with
      | rigidBody2D v2 => exact hk
      | otherNode => exact hk
      | rectangle mat uv =>
        dsimp only
        by_cases hd : mat.hasDiffuseTexture
        · simp only [hd, if_true]
          by_cases hks : k = spr
          · rw [hks] at hk
            rw [hk] at hgs
            injection hgs with heq
            rw [heq] at hkind
            rw [hkind] at hsk
            exact absurd hsk (by simp)
          · rw [Platformer.Graph.setNode_of_ne _ _ _ _ hks]
            exact hk
        · simp only [hd, if_false]
          exact hk

theorem Platformer.animationStep_player (q : Platformer.Player) (spr : Nat)
    (dt : Rat) (g : Platformer.Graph) :
    (Platformer.Player.animationStep q spr dt g).player =
      { q with animations := (Platformer.Player.animationStep q spr dt g).player.animations } := by
  unfold Platformer.Player.animationStep
  cases hga : q.animations.get? q.current_animation with
  | none => rfl
  | some anim =>
    dsimp only
    cases hgs : g spr with
    | none => rfl
    | some sprite =>
      dsimp only
      cases hsk : sprite.kind with
      | rigidBody2D v2 => rfl
      | otherNode => rfl
      | rectangle mat uv =>
        dsimp only
        split
        · rfl
        · rfl

/-- C1: for the platformer `Player` script, on every `on_update` call
where the script's node is a 2D rigid body, the input state is applied to
the body's linear velocity: x is 3.0 when `move_left`, -3.0 when
`move_right` (and `move_left` is false), 0.0 otherwise; y is 4.0 when
`jump` and the body's current y velocity otherwise. -/
theorem Platformer.onUpdate_applies_input_velocity
    (p : Platformer.Player) (ctx : Platformer.ScriptContext)
    (node : Platformer.Node) (linVel : Platformer.Vector2)
    (hnode : ctx.graph ctx.handle = some node)
    (hkind : node.kind = Platformer.NodeKind.rigidBody2D linVel) :
    ∃ n', (p.onUpdate ctx).graph ctx.handle = some n' ∧
      n'.kind = Platformer.NodeKind.rigidBody2D
        ⟨if p.move_left then 3 else if p.move_right then -3 else 0,
         if p.jump then 4 else linVel.y⟩ := by
  unfold Platformer.Player.onUpdate
  rw [hnode]
  dsimp only
  obtain ⟨n', hn', hk'⟩ := Platformer.bodyStep_vel p ctx node linVel hkind
  exact ⟨n', Platformer.animationStep_preserves_rigid _ _ _ _ _ _ _ hn' hk',
    by rw [hk']; rfl⟩

/-- Witness for C1: a concrete moving-left, non-jumping player on a rigid
body with y velocity 2 gets linear velocity (3, 2). -/
theorem Platformer.onUpdate_applies_input_velocity_witness :
    ∃ n', (Platformer.Player.onUpdate ⟨0, true, false, false, [], 0⟩
        ⟨1, fun k => if k = 1 then
            some ⟨Platformer.NodeKind.rigidBody2D ⟨0, 2⟩, ⟨1, 1, 1⟩⟩
          else none, 1⟩).graph 1 = some n' ∧
      n'.kind = Platformer.NodeKind.rigidBody2D ⟨3, 2⟩ :=
  Platformer.onUpdate_applies_input_velocity ⟨0, true, false, false, [], 0⟩
    ⟨1, fun k => if k = 1 then
        some ⟨Platformer.NodeKind.rigidBody2D ⟨0, 2⟩, ⟨1, 1, 1⟩⟩
      else none, 1⟩
    ⟨Platformer.NodeKind.rigidBody2D ⟨0, 2⟩, ⟨1, 1, 1⟩⟩ ⟨0, 2⟩ rfl rfl

/-- C10: for the platformer `Player` script, when `context.handle` is a
valid node and `self.sprite` is an invalid handle, `on_update` does not
panic; the sprite mutations are skipped (every node other than the
script's own is untouched) and the rest of the update still runs (the
rigid-body velocity is still applied). -/
theorem Platformer.onUpdate_invalid_sprite_safe
    (p : Platformer.Player) (ctx : Platformer.ScriptContext)
    (node : Platformer.Node)
    (hnode : ctx.graph ctx.handle = some node)
    (hsprite : ctx.graph p.sprite = none) :
    (p.onUpdate ctx).panicked = false ∧
    (∀ k, k ≠ ctx.handle → (p.onUpdate ctx).graph k = ctx.graph k) ∧
    (∀ v, node.kind = Platformer.NodeKind.rigidBody2D v →
      ∃ n', (p.onUpdate ctx).graph ctx.handle = some n' ∧
        n'.kind = Platformer.NodeKind.rigidBody2D
          ⟨Platformer.claimedXSpeed p, if p.jump then 4 else v.y⟩) := by
  have hsp : p.sprite ≠ ctx.handle := by
    intro he
    rw [he, hnode] at hsprite
    exact Option.noConfusion hsprite
  unfold Platformer.Player.onUpdate
  rw [hnode]
  dsimp only
  obtain ⟨hbs, hbk⟩ := Platformer.bodyStep_sprite_invalid p ctx node hsprite hsp
  obtain ⟨hg, hpb⟩ := Platformer.animationStep_sprite_none (p.bodyStep ctx node).1
    p.sprite ctx.dt (p.bodyStep ctx node).2 hbs
  refine ⟨hpb, ?_, ?_⟩
  · intro k hk
    rw [hg]
    exact hbk k hk
  · intro v hv
    obtain ⟨n', hn', hk'⟩ := Platformer.bodyStep_vel p ctx node v hv
    exact ⟨n', by rw [hg]; exact hn', hk'⟩

/-- Witness for C10: a concrete player whose sprite handle 5 is dangling,
attached to a valid rigid-body node, finishes `on_update` without a
panic. -/
theorem Platformer.onUpdate_invalid_sprite_safe_witness :
    (Platformer.Player.onUpdate ⟨5, true, false, true, [⟨0, 9, none⟩], 0⟩
      ⟨1, fun k => if k = 1 then
          some ⟨Platformer.NodeKind.rigidBody2D ⟨0, 2⟩, ⟨1, 1, 1⟩⟩
        else none, 1⟩).panicked = false :=
  (Platformer.onUpdate_invalid_sprite_safe ⟨5, true, false, true, [⟨0, 9, none⟩], 0⟩
    ⟨1, fun k => if k = 1 then
        some ⟨Platformer.NodeKind.rigidBody2D ⟨0, 2⟩, ⟨1, 1, 1⟩⟩
      else none, 1⟩
    ⟨Platformer.NodeKind.rigidBody2D ⟨0, 2⟩, ⟨1, 1, 1⟩⟩ rfl rfl).1

theorem Platformer.bodyStep_move_right_irrel (p : Platformer.Player)
    (ctx : Platformer.ScriptContext) (node : Platformer.Node)
    (hl : p.move_left = true) :
    (Platformer.Player.bodyStep { p with move_right := false } ctx node).2 =
      (p.bodyStep ctx node).2 ∧
    (Platformer.Player.bodyStep { p with move_right := false } ctx node).1 =
      { (p.bodyStep ctx node).1 with move_right := false } := by
  unfold Platformer.Player.bodyStep
  cases hk : node.kind with
  | rigidBody2D v =>
    dsimp only
    refine ⟨?_, ?_⟩ <;> simp [hl]
  | rectangle mat uv => exact ⟨rfl, rfl⟩
  | otherNode => exact ⟨rfl, rfl⟩

theorem Platformer.animationStep_move_right_irrel (q : Platformer.Player)
    (spr : Nat) (dt : Rat) (g : Platformer.Graph) :
    (Platformer.Player.animationStep { q with move_right := false } spr dt g).graph =
      (Platformer.Player.animationStep q spr dt g).graph ∧
    (Platformer.Player.animationStep { q with move_right := false } spr dt g).panicked =
      (Platformer.Player.animationStep q spr dt g).panicked ∧
    (Platformer.Player.animationStep { q with move_right := false } spr dt g).player =
      { (Platformer.Player.animationStep q spr dt g).player with move_right := false } := by
  unfold Platformer.Player.animationStep
  dsimp only
  cases hga : q.animations.get? q.current_animation with
  | none => exact ⟨rfl, rfl, rfl⟩
  | some anim =>
    dsimp only
    cases hgs : g spr with
    | none => exact ⟨rfl, rfl, rfl⟩
    | some sprite =>
      dsimp only
      cases hsk : sprite.kind with
      | rigidBody2D v => exact ⟨rfl, rfl, rfl⟩
      | otherNode => exact ⟨rfl, rfl, rfl⟩
      | rectangle mat uv =>
        dsimp only
        split
        · exact ⟨rfl, rfl, rfl⟩
        · exact ⟨rfl, rfl, rfl⟩

/-- C8: for the platformer `Player` script, when both `move_left` and
`move_right` are true on an `on_update` call, `move_left` wins: the
result is exactly that of the call with only `move_left` (up to the
untouched `move_right` flag itself), the horizontal speed is 3.0, and
`current_animation` is set to 0. -/
theorem Platformer.onUpdate_left_precedence
    (p : Platformer.Player) (ctx : Platformer.ScriptContext)
    (node : Platformer.Node) (linVel : Platformer.Vector2)
    (hnode : ctx.graph ctx.handle = some node)
    (hkind : node.kind = Platformer.NodeKind.rigidBody2D linVel)
    (hl : p.move_left = true) (_hr : p.move_right = true) :
    (Platformer.Player.onUpdate { p with move_right := false } ctx).graph =
      (p.onUpdate ctx).graph ∧
    (Platformer.Player.onUpdate { p with move_right := false } ctx).panicked =
      (p.onUpdate ctx).panicked ∧
    (Platformer.Player.onUpdate { p with move_right := false } ctx).player =
      { (p.onUpdate ctx).player with move_right := false } ∧
    (p.onUpdate ctx).player.current_animation = 0 ∧
    (∃ n', (p.onUpdate ctx).graph ctx.handle = some n' ∧
      n'.kind = Platformer.NodeKind.rigidBody2D ⟨3, if p.jump then 4 else linVel.y⟩) := by
  unfold Platformer.Player.onUpdate
  rw [hnode]
  dsimp only
  obtain ⟨hbg, hbp⟩ := Platformer.bodyStep_move_right_irrel p ctx node hl
  rw [hbg, hbp]
  obtain ⟨hag, hap, hpp⟩ := Platformer.animationStep_move_right_irrel
    (p.bodyStep ctx node).1 p.sprite ctx.dt (p.bodyStep ctx node).2
  refine ⟨hag, hap, hpp, ?_, ?_⟩
  · rw [Platformer.animationStep_player]
    show (p.bodyStep ctx node).1.current_animation = 0
    rw [Platformer.bodyStep_fst_rigid p ctx node linVel hkind]
    simp [Platformer.claimedXSpeed, hl]
  · obtain ⟨n', hn', hk'⟩ := Platformer.bodyStep_vel p ctx node linVel hkind
    refine ⟨n', Platformer.animationStep_preserves_rigid _ _ _ _ _ _ _ hn' hk', ?_⟩
    rw [hk']
    simp [Platformer.claimedXSpeed, hl]

/-- Witness for C8: a concrete player holding both A and D still gets
animation 0 selected. -/
theorem Platformer.onUpdate_left_precedence_witness :
    (Platformer.Player.onUpdate ⟨0, true, true, false, [], 0⟩
      ⟨1, fun k => if k = 1 then
          some ⟨Platformer.NodeKind.rigidBody2D ⟨0, 2⟩, ⟨1, 1, 1⟩⟩
        else none, 1⟩).player.current_animation = 0 :=
  (Platformer.onUpdate_left_precedence ⟨0, true, true, false, [], 0⟩
    ⟨1, fun k => if k = 1 then
        some ⟨Platformer.NodeKind.rigidBody2D ⟨0, 2⟩, ⟨1, 1, 1⟩⟩
      else none, 1⟩
    ⟨Platformer.NodeKind.rigidBody2D ⟨0, 2⟩, ⟨1, 1, 1⟩⟩ ⟨0, 2⟩
    rfl rfl rfl rfl).2.2.2.1

theorem UIDemo.Scenes.setScene_lookup_self (sc : UIDemo.Scenes) (h : Nat)
    (s : UIDemo.Scene) : sc.setScene h s h = some s := by
  simp [UIDemo.Scenes.setScene]

theorem UIDemo.Scene.setNode_lookup_self (s : UIDemo.Scene) (h : Nat)
    (n : UIDemo.Node3D) : (s.setNode h n).graph h = some n := by
  simp [UIDemo.Scene.setNode]

/-- C3: in the UI demo, a `ScrollBarMessage::Value` travelling
`FromWidget` whose destination is the scale scroll bar sets the paladin's
local scale to the uniform vector (value, value, value); one whose
destination is the yaw scroll bar instead sets the paladin's local
rotation to a rotation of value-in-degrees about the y axis — given a
built interface and valid scene and paladin handles. -/
theorem UIDemo.onUiMessage_scroll_updates_paladin
    (g : UIDemo.Game) (scenes : UIDemo.Scenes) (m : UIDemo.UiMessage)
    (itf : UIDemo.Interface) (s : UIDemo.Scene) (paladin : UIDemo.Node3D)
    (v : Rat)
    (hitf : g.interface = some itf)
    (hdata : m.data = UIDemo.UiMsgData.scrollBarValue v)
    (hdir : m.direction = MessageDirection.fromWidget)
    (hs : scenes g.scene = some s)
    (hp : s.graph g.paladin = some paladin) :
    (m.destination = itf.scale →
      ∃ s', g.onUiMessage scenes m g.scene = some s' ∧
        s'.graph g.paladin = some { paladin with scale := ⟨v, v, v⟩ }) ∧
    (m.destination ≠ itf.scale → m.destination = itf.yaw →
      ∃ s', g.onUiMessage scenes m g.scene = some s' ∧
        s'.graph g.paladin =
          some { paladin with rotation := YRotation.fromAxisAngleY ⟨v⟩ }) := by
  unfold UIDemo.Game.onUiMessage
  rw [hitf, hdata]
  dsimp only
  rw [hdir, if_pos rfl, hs]
  dsimp only
  rw [hp]
  dsimp only
  constructor
  · intro h1
    rw [if_pos h1]
    exact ⟨_, UIDemo.Scenes.setScene_lookup_self _ _ _, UIDemo.Scene.setNode_lookup_self _ _ _⟩
  · intro h1 h2
    rw [if_neg h1, if_pos h2]
    exact ⟨_, UIDemo.Scenes.setScene_lookup_self _ _ _, UIDemo.Scene.setNode_lookup_self _ _ _⟩

/-- Witness for C3: a concrete value message from the scale scroll bar
rescales a concrete paladin node to (1/2, 1/2, 1/2). -/
theorem UIDemo.onUiMessage_scroll_updates_paladin_witness :
    ∃ s', UIDemo.Game.onUiMessage ⟨10, some ⟨0, 1, 2, 3, 4, 5, 6⟩, 20⟩
        (fun k => if k = 10 then
          some ⟨fun j => if j = 20 then
            some ⟨⟨1, 1, 1⟩, YRotation.otherRotation 0⟩ else none⟩ else none)
        ⟨2, MessageDirection.fromWidget, UIDemo.UiMsgData.scrollBarValue (1/2)⟩ 10 =
        some s' ∧
      s'.graph 20 = some ⟨⟨1/2, 1/2, 1/2⟩, YRotation.otherRotation 0⟩ :=
  (UIDemo.onUiMessage_scroll_updates_paladin ⟨10, some ⟨0, 1, 2, 3, 4, 5, 6⟩, 20⟩
    (fun k => if k = 10 then
      some ⟨fun j => if j = 20 then
        some ⟨⟨1, 1, 1⟩, YRotation.otherRotation 0⟩ else none⟩ else none)
    ⟨2, MessageDirection.fromWidget, UIDemo.UiMsgData.scrollBarValue (1/2)⟩
    ⟨0, 1, 2, 3, 4, 5, 6⟩
    ⟨fun j => if j = 20 then some ⟨⟨1, 1, 1⟩, YRotation.otherRotation 0⟩ else none⟩
    ⟨⟨1, 1, 1⟩, YRotation.otherRotation 0⟩ (1/2)
    rfl rfl rfl rfl rfl).1 rfl

theorem BlendShape.Scenes.setScene_lookup_blend (sc : BlendShape.Scenes) (h : Nat)
    (s : BlendShape.Scene) : sc.setScene h s h = some s := by
  simp [BlendShape.Scenes.setScene]

/-- C6: in the blend-shape demo, on every `Game::update` call with a
valid scene, `rotate_left` subtracts 5 degrees from the model angle, else
`rotate_right` adds 5 degrees, else the angle is unchanged
(`rotate_left` takes precedence); the model node's local rotation is then
set to the resulting angle about the y axis. -/
theorem BlendShape.update_rotates_model (g : BlendShape.Game)
    (scenes : BlendShape.Scenes) (s : BlendShape.Scene) (node : BlendShape.BNode)
    (hs : scenes g.scene = some s)
    (hm : s.graph.get? g.model_handle = some node) :
    ∃ g' scenes' s', g.update scenes = some (g', scenes') ∧
      g'.model_angle =
        (if g.input_controller.rotate_left then
          g.model_angle - (5 : Rat).toRadians
        else if g.input_controller.rotate_right then
          g.model_angle + (5 : Rat).toRadians
        else g.model_angle) ∧
      scenes' g.scene = some s' ∧
      s'.graph.get? g.model_handle =
        some { node with rotation := YRotation.fromAxisAngleY g'.model_angle } := by
  have hlt : g.model_handle < s.graph.length := by
    by_contra hge
    rw [List.get?_eq_none.mpr (le_of_not_lt hge)] at hm
    exact Option.noConfusion hm
  unfold BlendShape.Game.update
  rw [hs]
  dsimp only
  rw [hm]
  dsimp only
  refine ⟨_, _, _, rfl, rfl, BlendShape.Scenes.setScene_lookup_blend _ _ _, ?_⟩
  rw [List.get?_set_of_lt' _ _ hlt, if_pos rfl]

/-- Witness for C6: a concrete rotate-left frame turns the model from 180
to 175 degrees. -/
theorem BlendShape.update_rotates_model_witness :
    ∃ g' scenes' s',
      BlendShape.Game.update
        ⟨0, 0, ⟨true, false⟩, 0, ⟨180⟩, []⟩
        (fun k => if k = 0 then
          some ⟨[⟨"Gunan_animated2.fbx", false, [], YRotation.otherRotation 0⟩]⟩
        else none) = some (g', scenes') ∧
      g'.model_angle = ⟨175⟩ ∧
      scenes' 0 = some s' ∧
      s'.graph.get? 0 = some ⟨"Gunan_animated2.fbx", false, [],
        YRotation.fromAxisAngleY g'.model_angle⟩ := by
  obtain ⟨g', scenes', s', h1, h2, h3, h4⟩ :=
    BlendShape.update_rotates_model
      ⟨0, 0, ⟨true, false⟩, 0, ⟨180⟩, []⟩
      (fun k => if k = 0 then
        some ⟨[⟨"Gunan_animated2.fbx", false, [], YRotation.otherRotation 0⟩]⟩
      else none)
      ⟨[⟨"Gunan_animated2.fbx", false, [], YRotation.otherRotation 0⟩]⟩
      ⟨"Gunan_animated2.fbx", false, [], YRotation.otherRotation 0⟩ rfl rfl
  refine ⟨g', scenes', s', h1, ?_, h3, h4⟩
  rw [h2]
  show Radians.mk ((180 : Rat) - 5) = ⟨175⟩
  exact congrArg Radians.mk (by norm_num)

theorem rustClamp_le (x lo hi : Rat) : rustClamp x lo hi ≤ hi :=
  min_le_right _ _

theorem le_rustClamp (x lo hi : Rat) (h : lo ≤ hi) : lo ≤ rustClamp x lo hi :=
  le_min (le_max_right x lo) h

theorem SoundDemo.camera_onOsEvent_pitch_bounded (c : SoundDemo.CameraController)
    (e : SoundDemo.Event) (dt : Rat)
    (hlo : -SoundDemo.cameraPitchBound ≤ c.pitch)
    (hhi : c.pitch ≤ SoundDemo.cameraPitchBound) :
    -SoundDemo.cameraPitchBound ≤ (c.onOsEvent e dt).pitch ∧
      (c.onOsEvent e dt).pitch ≤ SoundDemo.cameraPitchBound := by
  cases e with
  | keyboardInput key state => cases key <;> exact ⟨hlo, hhi⟩
  | mouseMotion dx dy =>
    exact ⟨le_rustClamp _ _ _ (by norm_num [SoundDemo.cameraPitchBound]),
      rustClamp_le _ _ _⟩
  | otherWindowEvent => exact ⟨hlo, hhi⟩
  | otherDeviceEvent => exact ⟨hlo, hhi⟩
  | otherEvent => exact ⟨hlo, hhi⟩

theorem SoundDemo.camera_runEvents_pitch_bounded (evs : List (SoundDemo.Event × Rat))
    (c : SoundDemo.CameraController)
    (hlo : -SoundDemo.cameraPitchBound ≤ c.pitch)
    (hhi : c.pitch ≤ SoundDemo.cameraPitchBound) :
    -SoundDemo.cameraPitchBound ≤ (c.runEvents evs).pitch ∧
      (c.runEvents evs).pitch ≤ SoundDemo.cameraPitchBound := by
  induction evs generalizing c with
  | nil => exact ⟨hlo, hhi⟩
  | cons q t ih =>
    obtain ⟨h1, h2⟩ := SoundDemo.camera_onOsEvent_pitch_bounded c q.1 q.2 hlo hhi
    exact ih (c.onOsEvent q.1 q.2) h1 h2

theorem AnimationDemo.player_onOsEvent_pitch_bounded (p : AnimationDemo.Player)
    (e : AnimationDemo.Event) (dt : Rat)
    (hlo : -AnimationDemo.playerPitchBound ≤ p.pitch)
    (hhi : p.pitch ≤ AnimationDemo.playerPitchBound) :
    -AnimationDemo.playerPitchBound ≤ (p.onOsEvent e dt).pitch ∧
      (p.onOsEvent e dt).pitch ≤ AnimationDemo.playerPitchBound := by
  cases e with
  | keyboardInput key state =>
    cases key with
    | code cc => cases cc <;> exact ⟨hlo, hhi⟩
    | unidentified => exact ⟨hlo, hhi⟩
  | mouseMotion dx dy =>
    exact ⟨le_rustClamp _ _ _ (by norm_num [AnimationDemo.playerPitchBound]),
      rustClamp_le _ _ _⟩
  | otherWindowEvent => exact ⟨hlo, hhi⟩
  | otherDeviceEvent => exact ⟨hlo, hhi⟩
  | otherEvent => exact ⟨hlo, hhi⟩

theorem AnimationDemo.player_runEvents_pitch_bounded
    (evs : List (AnimationDemo.Event × Rat)) (p : AnimationDemo.Player)
    (hlo : -AnimationDemo.playerPitchBound ≤ p.pitch)
    (hhi : p.pitch ≤ AnimationDemo.playerPitchBound) :
    -AnimationDemo.playerPitchBound ≤ (p.runEvents evs).pitch ∧
      (p.runEvents evs).pitch ≤ AnimationDemo.playerPitchBound := by
  induction evs generalizing p with
  | nil => exact ⟨hlo, hhi⟩
  | cons q t ih =>
    obtain ⟨h1, h2⟩ := AnimationDemo.player_onOsEvent_pitch_bounded p q.1 q.2 hlo hhi
    exact ih (p.onOsEvent q.1 q.2) h1 h2

/-- C9: starting from the default state and after any sequence of
`on_os_event` calls with any events and any non-negative dt, the pitch
field stays within its clamp bounds: [-89.9, 89.9] degrees for the sound
demo's `CameraController` and [-90, 90] degrees for the animation demo's
`Player`. -/
theorem pitch_stays_within_clamp_bounds
    (evs1 : List (SoundDemo.Event × Rat))
    (evs2 : List (AnimationDemo.Event × Rat))
    (_h1 : ∀ q ∈ evs1, 0 ≤ q.2) (_h2 : ∀ q ∈ evs2, 0 ≤ q.2) :
    (-SoundDemo.cameraPitchBound ≤
        (SoundDemo.defaultCameraController.runEvents evs1).pitch ∧
      (SoundDemo.defaultCameraController.runEvents evs1).pitch ≤
        SoundDemo.cameraPitchBound) ∧
    (-AnimationDemo.playerPitchBound ≤
        (AnimationDemo.defaultPlayer.runEvents evs2).pitch ∧
      (AnimationDemo.defaultPlayer.runEvents evs2).pitch ≤
        AnimationDemo.playerPitchBound) := by
  constructor
  · exact SoundDemo.camera_runEvents_pitch_bounded evs1 _
      (by norm_num [SoundDemo.cameraPitchBound, SoundDemo.defaultCameraController])
      (by norm_num [SoundDemo.cameraPitchBound, SoundDemo.defaultCameraController])
  · exact AnimationDemo.player_runEvents_pitch_bounded evs2 _
      (by norm_num [AnimationDemo.playerPitchBound, AnimationDemo.defaultPlayer])
      (by norm_num [AnimationDemo.playerPitchBound, AnimationDemo.defaultPlayer])

/-- Witness for C9: after a single huge upward mouse motion in each demo
(dt 1), the pitch is still within the clamp bounds. -/
theorem pitch_stays_within_clamp_bounds_witness :
    (-SoundDemo.cameraPitchBound ≤
        (SoundDemo.defaultCameraController.runEvents
          [(SoundDemo.Event.mouseMotion 0 100000, 1)]).pitch ∧
      (SoundDemo.defaultCameraController.runEvents
          [(SoundDemo.Event.mouseMotion 0 100000, 1)]).pitch ≤
        SoundDemo.cameraPitchBound) ∧
    (-AnimationDemo.playerPitchBound ≤
        (AnimationDemo.defaultPlayer.runEvents
          [(AnimationDemo.Event.mouseMotion 0 100000, 1)]).pitch ∧
      (AnimationDemo.defaultPlayer.runEvents
          [(AnimationDemo.Event.mouseMotion 0 100000, 1)]).pitch ≤
        AnimationDemo.playerPitchBound) :=
  pitch_stays_within_clamp_bounds
    [(SoundDemo.Event.mouseMotion 0 100000, 1)]
    [(AnimationDemo.Event.mouseMotion 0 100000, 1)]
    (by intro q hq; rw [List.mem_singleton] at hq; rw [hq]; norm_num)
    (by intro q hq; rw [List.mem_singleton] at hq; rw [hq]; norm_num)

theorem BlendShape.applySliders_skip (sceneHandle dest : Nat) (value : Rat)
    (l : List (String × Nat)) (scenes : BlendShape.Scenes)
    (hnone : ∀ p ∈ l, dest ≠ p.2) :
    BlendShape.applySliders sceneHandle dest value l scenes = some scenes := by
  induction l with
  | nil => rfl
  | cons a t ih =>
    unfold BlendShape.applySliders at ih ⊢
    rw [List.foldlM_cons]
    have hstep : BlendShape.sliderStep sceneHandle dest value scenes a = some scenes := by
      unfold BlendShape.sliderStep
      rw [if_neg (hnone a (List.mem_cons_self a t))]
    rw [hstep]
    exact ih (fun p hp => hnone p (List.mem_cons_of_mem a hp))

theorem BlendShape.applySliders_spec (sceneHandle dest : Nat) (value : Rat)
    (l : List (String × Nat)) (scenes : BlendShape.Scenes)
    (nm : String) (sl : Nat) (s : BlendShape.Scene) (idx : Nat)
    (head : BlendShape.BNode)
    (hpw : l.Pairwise (fun a b => a.2 ≠ b.2))
    (hmem : (nm, sl) ∈ l)
    (hdest : dest = sl)
    (hs : scenes sceneHandle = some s)
    (hfind : s.graph.findIdx? (fun n => n.name == "Head_Mesh") = some idx)
    (hget : s.graph.get? idx = some head)
    (hmesh : head.isMesh = true) :
    BlendShape.applySliders sceneHandle dest value l scenes =
      some (scenes.setScene sceneHandle (BlendShape.weightWrite s idx head nm value)) := by
  induction l with
  | nil => exact absurd hmem (List.not_mem_nil _)
  | cons a t ih =>
    rw [List.pairwise_cons] at hpw
    rcases List.mem_cons.mp hmem with heq | hmem2
    · unfold BlendShape.applySliders
      rw [List.foldlM_cons]
      have hstep : BlendShape.sliderStep sceneHandle dest value scenes a =
          some (scenes.setScene sceneHandle (BlendShape.weightWrite s idx head nm value)) := by
        unfold BlendShape.sliderStep
        rw [← heq, if_pos hdest, hs]
        dsimp only
        rw [hfind]
        dsimp only
        rw [hget]
        dsimp only
        rw [if_pos hmesh]
      rw [hstep]
      exact BlendShape.applySliders_skip sceneHandle dest value t _
        (fun p hp => by
          rw [hdest]
          have hne2 := hpw.1 p hp
          rw [← heq] at hne2
          exact hne2)
    · have hne : dest ≠ a.2 := by
        rw [hdest]
        intro hc
        exact hpw.1 (nm, sl) hmem2 hc.symm
      unfold BlendShape.applySliders
      rw [List.foldlM_cons]
      have hstep : BlendShape.sliderStep sceneHandle dest value scenes a = some scenes := by
        unfold BlendShape.sliderStep
        rw [if_neg hne]
      rw [hstep]
      exact ih hpw.2 hmem2

/-- C4: in the blend-shape demo, a `ScrollBarMessage::Value` travelling
`FromWidget` whose destination is a registered slider sets, for every
blend shape of the `Head_Mesh` node whose name equals that slider's
name, the weight to the message's value, and leaves every blend shape
with a different name unchanged. -/
theorem BlendShape.onUiMessage_sets_matching_weights
    (g : BlendShape.Game) (scenes : BlendShape.Scenes)
    (m : BlendShape.UiMessage) (nm : String) (sl : Nat) (v : Rat)
    (s : BlendShape.Scene) (idx : Nat) (head : BlendShape.BNode)
    (hpw : g.sliders.Pairwise (fun a b => a.2 ≠ b.2))
    (hmem : (nm, sl) ∈ g.sliders)
    (hdata : m.data = BlendShape.UiMsgData.scrollBarValue v)
    (hdir : m.direction = MessageDirection.fromWidget)
    (hdest : m.destination = sl)
    (hs : scenes g.scene = some s)
    (hfind : s.graph.findIdx? (fun n => n.name == "Head_Mesh") = some idx)
    (hget : s.graph.get? idx = some head)
    (hmesh : head.isMesh = true) :
    g.onUiMessage scenes m =
      some (scenes.setScene g.scene (BlendShape.weightWrite s idx head nm v)) ∧
    (BlendShape.weightWrite s idx head nm v).graph.get? idx = some { head with blendShapes := head.blendShapes.map (fun b => if b.name = nm then { b with weight := v } else b) } := by
  constructor
  · unfold BlendShape.Game.onUiMessage
    rw [hdata]
    dsimp only
    rw [hdir, if_pos rfl]
    exact BlendShape.applySliders_spec g.scene m.destination v g.sliders scenes
      nm sl s idx head hpw hmem hdest hs hfind hget hmesh
  · have hlt : idx < s.graph.length := by
      by_contra hge
      rw [List.get?_eq_none.mpr (le_of_not_lt hge)] at hget
      exact Option.noConfusion hget
    unfold BlendShape.weightWrite
    dsimp only
    rw [List.get?_set_of_lt' _ _ hlt, if_pos rfl]

/-- Witness for C4: a concrete value message from the smile slider sets
the weight of the `ExpressionBlendshapes.Smile` blend shape to 50 and
leaves the other blend shape untouched. -/
theorem BlendShape.onUiMessage_sets_matching_weights_witness :
    BlendShape.Game.onUiMessage
      ⟨0, 0, ⟨false, false⟩, 0, ⟨180⟩, [("ExpressionBlendshapes.Smile", 42)]⟩
      (fun k => if k = 0 then some ⟨[⟨"Head_Mesh", true, [⟨"ExpressionBlendshapes.Smile", 0⟩, ⟨"Jaw", 1⟩], YRotation.otherRotation 0⟩]⟩ else none)
      ⟨42, MessageDirection.fromWidget, BlendShape.UiMsgData.scrollBarValue 50⟩ =
      some (BlendShape.Scenes.setScene
        (fun k => if k = 0 then some ⟨[⟨"Head_Mesh", true, [⟨"ExpressionBlendshapes.Smile", 0⟩, ⟨"Jaw", 1⟩], YRotation.otherRotation 0⟩]⟩ else none) 0
        (BlendShape.weightWrite ⟨[⟨"Head_Mesh", true, [⟨"ExpressionBlendshapes.Smile", 0⟩, ⟨"Jaw", 1⟩], YRotation.otherRotation 0⟩]⟩ 0 ⟨"Head_Mesh", true, [⟨"ExpressionBlendshapes.Smile", 0⟩, ⟨"Jaw", 1⟩], YRotation.otherRotation 0⟩ "ExpressionBlendshapes.Smile" 50)) :=
  (BlendShape.onUiMessage_sets_matching_weights
    ⟨0, 0, ⟨false, false⟩, 0, ⟨180⟩, [("ExpressionBlendshapes.Smile", 42)]⟩
    (fun k => if k = 0 then some ⟨[⟨"Head_Mesh", true, [⟨"ExpressionBlendshapes.Smile", 0⟩, ⟨"Jaw", 1⟩], YRotation.otherRotation 0⟩]⟩ else none)
    ⟨42, MessageDirection.fromWidget, BlendShape.UiMsgData.scrollBarValue 50⟩
    "ExpressionBlendshapes.Smile" 42 50
    ⟨[⟨"Head_Mesh", true, [⟨"ExpressionBlendshapes.Smile", 0⟩, ⟨"Jaw", 1⟩], YRotation.otherRotation 0⟩]⟩
    0 ⟨"Head_Mesh", true, [⟨"ExpressionBlendshapes.Smile", 0⟩, ⟨"Jaw", 1⟩], YRotation.otherRotation 0⟩
    (by simp) (by simp) rfl rfl rfl rfl rfl rfl rfl).1
